import Mathlib

/-!
Verification development for the call-center dialler service
(`src/modules/calls/services/call.service.ts`).

The TypeScript service is shallowly embedded: timestamps are integer
milliseconds (JavaScript `Date.getTime()`), database tables are lists of
records, a Prisma transaction is a pure function from the database state
to either an error (rollback: the original state is kept by the caller)
or a new state.  JavaScript truthiness of `x || d` on numbers (0 and
`undefined` are falsy) and on strings (`""` and `undefined` are falsy)
is modelled explicitly, because several behaviours hinge on it.
-/

namespace RMCDialer

/-- JavaScript `x || d` for an optional number: `undefined` and `0` are falsy. -/
def jsOrInt : Option Int → Int → Int
  | none, d => d
  | some v, d => if v = 0 then d else v

/-- JavaScript `x || d` for an optional string: `undefined` and `""` are falsy. -/
def jsOrStr : Option String → String → String
  | none, d => d
  | some s, d => if s = "" then d else s

/-- The `delayMap` record literal inside `getDefaultDelayHours`
(call.service.ts lines 484-493); `none` models a missing key. -/
def delayMap (outcomeType : String) : Option Int :=
  if outcomeType = "contacted" then some 24
  else if outcomeType = "no_answer" then some 4
  else if outcomeType = "busy" then some 2
  else if outcomeType = "wrong_number" then some 48
  else if outcomeType = "not_interested" then some 48
  else if outcomeType = "callback_requested" then some 0
  else if outcomeType = "left_voicemail" then some 8
  else if outcomeType = "failed" then some 1
  else none

/-- `getDefaultDelayHours` (call.service.ts lines 483-495):
`return delayMap[outcomeType] || 4` — JavaScript `||`, so a stored `0`
falls through to the fallback `4`. -/
def getDefaultDelayHours (outcomeType : String) : Int :=
  jsOrInt (delayMap outcomeType) 4

/-- The `adjustmentMap` record literal inside `getScoreAdjustment`
(call.service.ts lines 498-507). -/
def adjustmentMap (outcomeType : String) : Option Int :=
  if outcomeType = "contacted" then some (-10)
  else if outcomeType = "no_answer" then some 5
  else if outcomeType = "busy" then some 2
  else if outcomeType = "wrong_number" then some 50
  else if outcomeType = "not_interested" then some 100
  else if outcomeType = "callback_requested" then some (-20)
  else if outcomeType = "left_voicemail" then some 10
  else if outcomeType = "failed" then some 0
  else none

/-- `getScoreAdjustment` (call.service.ts lines 497-509):
`return adjustmentMap[outcomeType] || 0`. -/
def getScoreAdjustment (outcomeType : String) : Int :=
  jsOrInt (adjustmentMap outcomeType) 0

/-- `calculateNextCallTime` (call.service.ts lines 541-545):
`now + delayHours * 60 * 60 * 1000` milliseconds, with the delay always
resolved from the outcome type only. -/
def calculateNextCallTime (outcomeType : String) (now : Int) : Int :=
  now + getDefaultDelayHours outcomeType * 60 * 60 * 1000

/-- A `UserCallScore` row (one per user). -/
structure UserCallScore where
  userId : Nat
  currentScore : Int
  lastOutcome : String
  lastCallAt : Option Int
  totalAttempts : Nat
  nextCallAfter : Int
  deriving Repr, DecidableEq

/-- `updateUserScoreAfterCall` (call.service.ts lines 511-539) acting on the
row for one user (`none` = no existing row, taking Prisma `upsert`'s `create`
branch).  `const adjustment = scoreAdjustment || this.getScoreAdjustment(...)`
is JavaScript `||`: an explicit adjustment of `0` falls back to the default.
The `update` branch increments `currentScore` with no lower clamp; only the
`create` branch applies `Math.max(0, adjustment)`. -/
def updateUserScoreAfterCall (existing : Option UserCallScore) (userId : Nat)
    (outcomeType : String) (scoreAdjustment : Option Int) (now : Int) : UserCallScore :=
  let adjustment := jsOrInt scoreAdjustment (getScoreAdjustment outcomeType)
  let nextCallAfter := calculateNextCallTime outcomeType now
  match existing with
  | some s =>
      { s with
        currentScore := s.currentScore + adjustment
        lastOutcome := outcomeType
        lastCallAt := some now
        totalAttempts := s.totalAttempts + 1
        nextCallAfter := nextCallAfter }
  | none =>
      { userId := userId
        currentScore := max 0 adjustment
        lastOutcome := outcomeType
        lastCallAt := some now
        totalAttempts := 1
        nextCallAfter := nextCallAfter }

/-- Record the outcome types of a sequence of calls on one user, each with
default adjustment (no override), starting from no score row. -/
def applyOutcomes (userId : Nat) (outcomes : List String) (now : Int) :
    Option UserCallScore :=
  outcomes.foldl
    (fun st outcomeType => some (updateUserScoreAfterCall st userId outcomeType none now))
    none

/-- A `CallSession` row. -/
structure CallSessionRec where
  id : String
  userId : Nat
  agentId : Int
  callQueueId : String
  twilioCallSid : Option String := none
  status : String
  direction : String := "outbound"
  startedAt : Int
  connectedAt : Option Int := none
  endedAt : Option Int := none
  durationSeconds : Option Int := none
  talkTimeSeconds : Option Int := none
  deriving Repr, DecidableEq

/-- A `CallOutcome` row. -/
structure CallOutcomeRec where
  callSessionId : String
  outcomeType : String
  outcomeNotes : String
  nextCallDelayHours : Int
  scoreAdjustment : Int
  magicLinkSent : Bool
  smsSent : Bool
  documentsRequested : Option (List String)
  recordedByAgentId : Int
  deriving Repr, DecidableEq

/-- A `Callback` row. -/
structure CallbackRec where
  userId : Nat
  scheduledFor : Int
  callbackReason : String
  preferredAgentId : Int
  originalCallSessionId : String
  status : String
  deriving Repr, DecidableEq

/-- A `CallQueue` row (only the fields the call service touches). -/
structure QueueEntryRec where
  id : String
  status : String
  deriving Repr, DecidableEq

/-- An `AgentSession` row. -/
structure AgentSessionRec where
  agentId : Int
  status : String
  currentCallSessionId : Option String
  callsCompletedToday : Nat
  totalTalkTimeSeconds : Int
  lastActivity : Int
  deriving Repr, DecidableEq

/-- The transactional store the service operates on. -/
structure DB where
  sessions : List CallSessionRec
  outcomes : List CallOutcomeRec
  callbacks : List CallbackRec
  queues : List QueueEntryRec
  agentSessions : List AgentSessionRec
  userScores : List (Nat × UserCallScore)
  deriving Repr, DecidableEq

/-- The `CallOutcomeOptions` input of `recordCallOutcome`
(all optional fields may be `undefined`). -/
structure CallOutcomeOptions where
  outcomeType : String
  outcomeNotes : Option String := none
  nextCallDelayHours : Option Int := none
  scoreAdjustment : Option Int := none
  magicLinkSent : Option Bool := none
  smsSent : Option Bool := none
  documentsRequested : Option (List String) := none
  callbackDateTime : Option Int := none
  callbackReason : Option String := none
  deriving Repr, DecidableEq

/-- Prisma `userCallScore.upsert` keyed on `userId`, as issued by
`updateUserScoreAfterCall`: update the existing row in place, or append a
freshly created one. -/
def upsertUserScore (scores : List (Nat × UserCallScore)) (userId : Nat)
    (outcomeType : String) (scoreAdjustment : Option Int) (now : Int) :
    List (Nat × UserCallScore) :=
  match scores.find? (fun p => p.1 = userId) with
  | some _ =>
      scores.map (fun p =>
        if p.1 = userId then
          (p.1, updateUserScoreAfterCall (some p.2) userId outcomeType scoreAdjustment now)
        else p)
  | none =>
      scores ++ [(userId, updateUserScoreAfterCall none userId outcomeType scoreAdjustment now)]

/-- `recordCallOutcome` (call.service.ts lines 131-221).  The Prisma
transaction is a pure function: `Except.error` is a thrown error, rolling the
transaction back (the caller keeps the unchanged store).  The field
resolutions `outcome.x || default` use JavaScript `||`.
`if (callSession.callQueueId)` is string truthiness: the empty string skips
the queue update. -/
def recordCallOutcome (db : DB) (sessionId : String) (agentId : Int)
    (outcome : CallOutcomeOptions) (now : Int) :
    Except String (DB × CallOutcomeRec) :=
  match db.sessions.find? (fun s => s.id = sessionId) with
  | none => .error "Call session not found"
  | some callSession =>
    if callSession.agentId ≠ agentId then
      .error "Agent not authorized for this call session"
    else
      let callOutcome : CallOutcomeRec :=
        { callSessionId := sessionId
          outcomeType := outcome.outcomeType
          outcomeNotes := jsOrStr outcome.outcomeNotes ""
          nextCallDelayHours :=
            jsOrInt outcome.nextCallDelayHours (getDefaultDelayHours outcome.outcomeType)
          scoreAdjustment :=
            jsOrInt outcome.scoreAdjustment (getScoreAdjustment outcome.outcomeType)
          magicLinkSent := outcome.magicLinkSent.getD false
          smsSent := outcome.smsSent.getD false
          documentsRequested := outcome.documentsRequested
          recordedByAgentId := agentId }
      let outcomes := db.outcomes ++ [callOutcome]
      let userScores :=
        upsertUserScore db.userScores callSession.userId outcome.outcomeType
          outcome.scoreAdjustment now
      let callbacks :=
        if outcome.outcomeType = "callback_requested" then
          match outcome.callbackDateTime with
          | some dt =>
              db.callbacks ++
                [{ userId := callSession.userId
                   scheduledFor := dt
                   callbackReason := jsOrStr outcome.callbackReason "User requested callback"
                   preferredAgentId := agentId
                   originalCallSessionId := sessionId
                   status := "pending" }]
          | none => db.callbacks
        else db.callbacks
      let agentSessions :=
        if callSession.status ∈ (["completed", "failed", "no_answer"] : List String) then
          db.agentSessions.map (fun a =>
            if a.agentId = agentId ∧ a.currentCallSessionId = some sessionId then
              { a with
                status := "available"
                currentCallSessionId := none
                callsCompletedToday := a.callsCompletedToday + 1
                totalTalkTimeSeconds :=
                  a.totalTalkTimeSeconds + jsOrInt callSession.talkTimeSeconds 0
                lastActivity := now }
            else a)
        else db.agentSessions
      let queues :=
        if callSession.callQueueId ≠ "" then
          db.queues.map (fun q =>
            if q.id = callSession.callQueueId then { q with status := "completed" } else q)
        else db.queues
      .ok
        ({ db with
            outcomes := outcomes
            userScores := userScores
            callbacks := callbacks
            agentSessions := agentSessions
            queues := queues },
          callOutcome)

/-- `recordCallOutcome` as a state transformer: an error keeps the store
unchanged (transaction rollback). -/
def applyRecordCallOutcome (db : DB) (sessionId : String) (agentId : Int)
    (outcome : CallOutcomeOptions) (now : Int) : DB :=
  match recordCallOutcome db sessionId agentId outcome now with
  | .ok (db2, _) => db2
  | .error _ => db

/-- The `CallSessionOptions` input of `initiateCall`. -/
structure CallSessionOptions where
  userId : Nat
  agentId : Int
  queueId : Option String := none
  direction : Option String := none
  phoneNumber : Option String := none
  deriving Repr, DecidableEq

/-- `initiateCall` (call.service.ts lines 39-91): create the session row with
`callQueueId: queueId || ''`, flip matching agent sessions to `on_call`, and
mark the queue entry `assigned` only under `if (queueId)` (string
truthiness).  `newSessionId` stands for the id generated by the store. -/
def initiateCall (db : DB) (options : CallSessionOptions) (newSessionId : String)
    (now : Int) : DB × CallSessionRec :=
  let callSession : CallSessionRec :=
    { id := newSessionId
      userId := options.userId
      agentId := options.agentId
      callQueueId := jsOrStr options.queueId ""
      status := "initiated"
      direction := options.direction.getD "outbound"
      startedAt := now }
  let agentSessions :=
    db.agentSessions.map (fun a =>
      if a.agentId = options.agentId ∧ a.status ∈ (["available", "break"] : List String) then
        { a with
          status := "on_call"
          currentCallSessionId := some newSessionId
          lastActivity := now }
      else a)
  let queues :=
    if jsOrStr options.queueId "" ≠ "" then
      db.queues.map (fun q =>
        if q.id = jsOrStr options.queueId "" then { q with status := "assigned" } else q)
    else db.queues
  ({ db with
      sessions := db.sessions ++ [callSession]
      agentSessions := agentSessions
      queues := queues },
    callSession)

/-- The `CallUpdateOptions` input of `updateCallStatus`; `none` is an
`undefined` field, which Prisma leaves unchanged. -/
structure CallUpdateOptions where
  status : String
  twilioCallSid : Option String := none
  connectedAt : Option Int := none
  endedAt : Option Int := none
  deriving Repr, DecidableEq

/-- `updateCallStatus` (call.service.ts lines 96-126).  When `endedAt` is
supplied, the stored `durationSeconds` is
`Math.floor((endedAt - new Date().getTime()) / 1000)` — measured against the
wall clock `now`, not against `startedAt`; `talkTimeSeconds` is computed only
when the same update carries both `endedAt` and `connectedAt`. -/
def updateCallStatus (db : DB) (sessionId : String) (u : CallUpdateOptions)
    (now : Int) : DB :=
  { db with
    sessions := db.sessions.map (fun s =>
      if s.id = sessionId then
        { s with
          status := u.status
          twilioCallSid := u.twilioCallSid.orElse (fun _ => s.twilioCallSid)
          connectedAt := u.connectedAt.orElse (fun _ => s.connectedAt)
          endedAt := u.endedAt.orElse (fun _ => s.endedAt)
          durationSeconds :=
            match u.endedAt with
            | some e => some ((e - now).fdiv 1000)
            | none => s.durationSeconds
          talkTimeSeconds :=
            match u.endedAt, u.connectedAt with
            | some e, some c => some ((e - c).fdiv 1000)
            | _, _ => s.talkTimeSeconds }
      else s) }

/-- An inbound Twilio webhook (the fields `handleTwilioWebhook` reads). -/
structure TwilioWebhookData where
  CallSid : String
  CallStatus : String
  deriving Repr, DecidableEq

/-- The `statusMap` record literal inside `handleTwilioWebhook`
(call.service.ts lines 428-436). -/
def statusMapLookup (s : String) : Option String :=
  if s = "ringing" then some "ringing"
  else if s = "in-progress" then some "connected"
  else if s = "completed" then some "completed"
  else if s = "busy" then some "no_answer"
  else if s = "failed" then some "failed"
  else if s = "no-answer" then some "no_answer"
  else if s = "canceled" then some "failed"
  else none

/-- `statusMap[CallStatus] || 'failed'` (call.service.ts line 439). -/
def mapTwilioStatus (s : String) : String :=
  jsOrStr (statusMapLookup s) "failed"

/-- `handleTwilioWebhook` (call.service.ts lines 414-458): an unknown
`CallSid` is logged and dropped; otherwise the status is mapped,
`connectedAt` is set only on a first `in-progress`, `endedAt` is set on
every terminal event, and `updateCallStatus` is applied. -/
def handleTwilioWebhook (db : DB) (w : TwilioWebhookData) (now : Int) : DB :=
  match db.sessions.find? (fun s => s.twilioCallSid = some w.CallSid) with
  | none => db
  | some callSession =>
    let upd : CallUpdateOptions :=
      { status := mapTwilioStatus w.CallStatus
        connectedAt :=
          if w.CallStatus = "in-progress" ∧ callSession.connectedAt = none then
            some now
          else none
        endedAt :=
          if w.CallStatus ∈
              (["completed", "busy", "failed", "no-answer", "canceled"] : List String) then
            some now
          else none }
    updateCallStatus db callSession.id upd now

/-- The `CallAnalyticsFilters` input of `getCallAnalytics`. -/
structure CallAnalyticsFilters where
  agentId : Option Int := none
  startDate : Option Int := none
  endDate : Option Int := none
  outcomeType : Option String := none
  deriving Repr, DecidableEq

/-- The Prisma `where` clause `getCallAnalytics` builds from its filters
(agent match plus `startedAt` range). -/
def matchesAnalyticsFilters (f : CallAnalyticsFilters) (s : CallSessionRec) : Bool :=
  (match f.agentId with
   | some a => s.agentId = a
   | none => true) &&
  (match f.startDate with
   | some d => d ≤ s.startedAt
   | none => true) &&
  (match f.endDate with
   | some d => s.startedAt ≤ d
   | none => true)

/-- JavaScript division as a partial operation on finite numbers: dividing by
zero yields no finite number (`NaN` or `Infinity`), modelled as `none`.  All
numeric results in `getCallAnalytics` flow through this, so `Option.isSome`
of a field states that the field is a defined (finite) number. -/
def jsDiv (a b : ℚ) : Option ℚ :=
  if b = 0 then none else some (a / b)

/-- JavaScript `Math.round`: round half toward positive infinity. -/
def jsRound (x : ℚ) : Int :=
  ⌊x + 1 / 2⌋

/-- Prisma `_avg` over the non-null values of a column: `null` (`none`) when
no row matches, otherwise the mean. -/
def avgOpt (xs : List Int) : Option ℚ :=
  if xs.isEmpty then none else jsDiv ((xs.map (fun x => (x : ℚ))).sum) (xs.length : ℚ)

/-- `Math.round((v / 60) * 100) / 100` applied to a Prisma average under the
truthiness guard `avg ? ... : 0` (both `null` and `0` take the `0` branch). -/
def avgMinutes (avg : Option ℚ) : Option ℚ :=
  match avg with
  | none => some 0
  | some v =>
      if v = 0 then some 0
      else (jsDiv v 60).bind (fun a => jsDiv ((jsRound (a * 100) : Int) : ℚ) 100)

/-- The result record of `getCallAnalytics`.  Fields produced by a division
are `Option ℚ` with `none` marking a non-finite JavaScript number. -/
structure CallAnalytics where
  totalCalls : Nat
  completedCalls : Nat
  successfulContacts : Nat
  noAnswers : Nat
  callbacks : Nat
  notInterested : Nat
  avgDurationMinutes : Option ℚ
  avgTalkTimeMinutes : Option ℚ
  contactRate : Option ℚ
  deriving Repr, DecidableEq

/-- `getCallAnalytics` (call.service.ts lines 291-349): counts over the
filtered sessions, per-outcome counts over outcomes joined to matching
sessions, averages over the non-null duration/talk-time columns, and
`contactRate = totalCalls > 0 ? Math.round(contacted / totalCalls * 100) : 0`. -/
def getCallAnalytics (db : DB) (f : CallAnalyticsFilters) : CallAnalytics :=
  let matched := db.sessions.filter (matchesAnalyticsFilters f)
  let totalCalls := matched.length
  let outcomeCount := fun (t : String) =>
    (db.outcomes.filter (fun o =>
      o.outcomeType = t && matched.any (fun s => s.id = o.callSessionId))).length
  let avgDuration := avgOpt (matched.filterMap (fun s => s.durationSeconds))
  let avgTalkTime := avgOpt (matched.filterMap (fun s => s.talkTimeSeconds))
  { totalCalls := totalCalls
    completedCalls := (matched.filter (fun s => s.status = "completed")).length
    successfulContacts := outcomeCount "contacted"
    noAnswers := outcomeCount "no_answer"
    callbacks := outcomeCount "callback_requested"
    notInterested := outcomeCount "not_interested"
    avgDurationMinutes := avgMinutes avgDuration
    avgTalkTimeMinutes := avgMinutes avgTalkTime
    contactRate :=
      if totalCalls > 0 then
        (jsDiv (outcomeCount "contacted" : ℚ) (totalCalls : ℚ)).map
          (fun r => ((jsRound (r * 100) : Int) : ℚ))
      else some 0 }

/-! ## Concrete stores used as test inputs -/

/-- Store holding one completed session `"s1"` of agent 7 on user 1, who has
an existing score row at `currentScore = 100`. -/
def dbWithScore100 : DB :=
  { sessions := [{ id := "s1", userId := 1, agentId := 7, callQueueId := "",
                   status := "completed", startedAt := 0 }]
    outcomes := []
    callbacks := []
    queues := []
    agentSessions := []
    userScores := [(1, { userId := 1, currentScore := 100, lastOutcome := "no_answer",
                         lastCallAt := none, totalAttempts := 3, nextCallAfter := 0 })] }

/-- A `contacted` outcome submission carrying an explicit zero score
adjustment and an explicit 5-hour next-call delay. -/
def contactedWithOverrides : CallOutcomeOptions :=
  { outcomeType := "contacted", scoreAdjustment := some 0, nextCallDelayHours := some 5 }

/-- Store holding one ringing session `"s1"` with Twilio SID `"CA1"`,
started at time 0. -/
def dbRinging : DB :=
  { sessions := [{ id := "s1", userId := 1, agentId := 7, callQueueId := "",
                   twilioCallSid := some "CA1", status := "ringing", startedAt := 0 }]
    outcomes := []
    callbacks := []
    queues := []
    agentSessions := []
    userScores := [] }

/-- `dbRinging` after an `in-progress` webhook at t = 10000 ms. -/
def dbConnected : DB :=
  handleTwilioWebhook dbRinging { CallSid := "CA1", CallStatus := "in-progress" } 10000

/-- `dbConnected` after a `completed` webhook at t = 135000 ms
(125 s after connecting). -/
def dbEnded : DB :=
  handleTwilioWebhook dbConnected { CallSid := "CA1", CallStatus := "completed" } 135000

/-- `dbConnected` after a replayed `in-progress` webhook at t = 20000 ms. -/
def dbConnectedReplay : DB :=
  handleTwilioWebhook dbConnected { CallSid := "CA1", CallStatus := "in-progress" } 20000

/-- `dbEnded` after a replayed `completed` webhook at t = 200000 ms. -/
def dbEndedReplay : DB :=
  handleTwilioWebhook dbEnded { CallSid := "CA1", CallStatus := "completed" } 200000

/-! ## Claims -/

/-- C1: the scoring helpers match the canonical table for every recognized
outcome type and default to adjustment 0 / delay 4 h on an unrecognized one —
except that `getDefaultDelayHours "callback_requested"` evaluates to 4, not
the claimed 0: the map literal stores 0, but JavaScript
`delayMap[outcomeType] || 4` treats the stored 0 as falsy, so `nextCallAfter`
for an un-overridden `callback_requested` lands 4 hours out.  This theorem
evaluates the code at every table entry, exhibiting the divergence. -/
theorem scoring_table_matches_except_callback_delay :
    getScoreAdjustment "contacted" = -10 ∧ getDefaultDelayHours "contacted" = 24 ∧
    getScoreAdjustment "no_answer" = 5 ∧ getDefaultDelayHours "no_answer" = 4 ∧
    getScoreAdjustment "busy" = 2 ∧ getDefaultDelayHours "busy" = 2 ∧
    getScoreAdjustment "left_voicemail" = 10 ∧ getDefaultDelayHours "left_voicemail" = 8 ∧
    getScoreAdjustment "wrong_number" = 50 ∧ getDefaultDelayHours "wrong_number" = 48 ∧
    getScoreAdjustment "not_interested" = 100 ∧ getDefaultDelayHours "not_interested" = 48 ∧
    getScoreAdjustment "callback_requested" = -20 ∧
    getScoreAdjustment "failed" = 0 ∧ getDefaultDelayHours "failed" = 1 ∧
    getScoreAdjustment "some_unknown_outcome" = 0 ∧
    getDefaultDelayHours "some_unknown_outcome" = 4 ∧
    getDefaultDelayHours "callback_requested" = 4 ∧
    calculateNextCallTime "callback_requested" 0 = 4 * 60 * 60 * 1000 := by
  decide

/-- C2: explicit overrides do not always win.  Recording a `contacted`
outcome with explicit `scoreAdjustment = 0` and `nextCallDelayHours = 5` on a
user at score 100: the applied delta is the default −10 (score becomes 90,
not 100), because `scoreAdjustment || default` treats 0 as falsy; and
`nextCallAfter` becomes now + 24 h = 86400000 ms (not now + 5 h =
18000000 ms), because `calculateNextCallTime` never reads the supplied
delay — it is only stored on the `CallOutcome` row. -/
theorem explicit_override_not_honoured :
    ((applyRecordCallOutcome dbWithScore100 "s1" 7 contactedWithOverrides 0).userScores.find?
        (fun p => p.1 = 1)).map (fun p => (p.2.currentScore, p.2.nextCallAfter))
      = some (90, 86400000) ∧
    (recordCallOutcome dbWithScore100 "s1" 7 contactedWithOverrides 0).toOption.map
        (fun r => r.2.nextCallDelayHours) = some 5 := by
  decide

/-- C3: `totalAttempts` does count the recorded outcomes, but the
`currentScore ≥ 0` invariant fails: two default `contacted` outcomes on a
fresh user leave `totalAttempts = 2` and `currentScore = -10`, because the
upsert's update branch increments the score without the `Math.max(0, ·)`
clamp that only the create branch applies. -/
theorem score_goes_negative_on_second_contacted :
    (applyOutcomes 1 ["contacted", "contacted"] 0).map
        (fun s => (s.totalAttempts, s.currentScore)) = some (2, -10) := by
  decide

/-- C4: with `connectedAt` stamped at t = 10000 by an `in-progress` webhook
and `endedAt` stamped at t = 135000 by a `completed` webhook (125 s later),
the stored row diverges from the claim: `durationSeconds = 0` instead of
`endedAt − startedAt = 135`, because the code subtracts the wall clock
(`new Date()`) rather than `startedAt`; and `talkTimeSeconds` is absent
instead of 125, because it is computed only when one update carries both
timestamps, which never happens across separate webhook deliveries. -/
theorem duration_talktime_diverge_across_deliveries :
    (dbEnded.sessions.find? (fun s => s.id = "s1")).map
        (fun s => (s.startedAt, s.connectedAt, s.endedAt,
                   s.durationSeconds, s.talkTimeSeconds))
      = some (0, some 10000, some 135000, some 0, none) := by
  decide

/-- C5: a repeated `in-progress` webhook leaves the stamped `connectedAt`
untouched (that half of the claim holds), but replaying the terminal
`completed` webhook is not idempotent: the second delivery overwrites
`endedAt` from 135000 to the new wall-clock 200000 and recomputes
`durationSeconds`, since `handleTwilioWebhook` stamps `endedAt := new Date()`
on every terminal event with no already-ended guard.  (Webhook handling never
touches scores, so no score is double-applied.) -/
theorem terminal_webhook_replay_restamps_endedAt :
    ((dbConnectedReplay.sessions.find? (fun s => s.id = "s1")).map
        (fun s => s.connectedAt) = some (some 10000)) ∧
    ((dbEnded.sessions.find? (fun s => s.id = "s1")).map
        (fun s => s.endedAt) = some (some 135000)) ∧
    ((dbEndedReplay.sessions.find? (fun s => s.id = "s1")).map
        (fun s => (s.endedAt, s.durationSeconds)) = some (some 200000, some 0)) := by
  decide

/-- Store holding one completed session `"s9"` of agent 3 on user 2, with no
score row for anybody. -/
def dbNoScores : DB :=
  { sessions := [{ id := "s9", userId := 2, agentId := 3, callQueueId := "",
                   status := "completed", startedAt := 50 }]
    outcomes := []
    callbacks := []
    queues := []
    agentSessions := []
    userScores := [] }

/-- C6: for any outcome submission on a user with no existing `UserCallScore`
row, `recordCallOutcome` seeds the row with
`currentScore = max 0 adjustment` (the resolved adjustment, never negative),
`totalAttempts = 1`, `lastOutcome` = the outcome type, and
`nextCallAfter = now + resolvedDelayHours · 3600 · 1000` ms
(= 3600 s per delay hour), the delay resolved from the outcome type by
`getDefaultDelayHours`. -/
theorem fresh_user_score_seeded (db : DB) (sessionId : String) (agentId : Int)
    (opts : CallOutcomeOptions) (now : Int) (cs : CallSessionRec)
    (hfind : db.sessions.find? (fun s => s.id = sessionId) = some cs)
    (hagent : cs.agentId = agentId)
    (hfresh : db.userScores.find? (fun p => p.1 = cs.userId) = none) :
    (applyRecordCallOutcome db sessionId agentId opts now).userScores.find?
        (fun p => p.1 = cs.userId) =
      some (cs.userId,
        { userId := cs.userId
          currentScore :=
            max 0 (jsOrInt opts.scoreAdjustment (getScoreAdjustment opts.outcomeType))
          lastOutcome := opts.outcomeType
          lastCallAt := some now
          totalAttempts := 1
          nextCallAfter := now + getDefaultDelayHours opts.outcomeType * 60 * 60 * 1000 }) := by
  simp only [applyRecordCallOutcome, recordCallOutcome, hfind]
  rw [if_neg (by simp [hagent])]
  simp [upsertUserScore, hfresh, updateUserScoreAfterCall, calculateNextCallTime,
    List.find?_append]

/-- Witness for C6: a `no_answer` outcome on fresh user 2 at `now = 1000`
seeds score 5, one attempt, next call 4 h (14400000 ms) later. -/
theorem fresh_user_score_seeded_witness :
    (applyRecordCallOutcome dbNoScores "s9" 3 { outcomeType := "no_answer" } 1000).userScores.find?
        (fun p => p.1 = 2) =
      some (2, { userId := 2, currentScore := 5, lastOutcome := "no_answer",
                 lastCallAt := some 1000, totalAttempts := 1,
                 nextCallAfter := 14401000 }) := by
  rw [fresh_user_score_seeded dbNoScores "s9" 3 { outcomeType := "no_answer" } 1000
    { id := "s9", userId := 2, agentId := 3, callQueueId := "",
      status := "completed", startedAt := 50 }
    (by decide) (by decide) (by decide)]
  decide

/-- C7: `recordCallOutcome` on an unknown session id fails with the
not-found error, and on a session assigned to a different agent fails with
the permission error; in both cases the transaction is rolled back, so the
store — outcomes, scores, callbacks, agent sessions and queue entries — is
unchanged. -/
theorem record_outcome_rejects_unknown_and_foreign (db : DB) (sessionId : String)
    (agentId : Int) (opts : CallOutcomeOptions) (now : Int) :
    (db.sessions.find? (fun s => s.id = sessionId) = none →
      recordCallOutcome db sessionId agentId opts now =
        .error "Call session not found" ∧
      applyRecordCallOutcome db sessionId agentId opts now = db) ∧
    (∀ cs, db.sessions.find? (fun s => s.id = sessionId) = some cs →
      cs.agentId ≠ agentId →
      recordCallOutcome db sessionId agentId opts now =
        .error "Agent not authorized for this call session" ∧
      applyRecordCallOutcome db sessionId agentId opts now = db) := by
  constructor
  · intro h
    have he : recordCallOutcome db sessionId agentId opts now =
        .error "Call session not found" := by
      simp [recordCallOutcome, h]
    exact ⟨he, by simp [applyRecordCallOutcome, he]⟩
  · intro cs hfind hne
    have he : recordCallOutcome db sessionId agentId opts now =
        .error "Agent not authorized for this call session" := by
      simp only [recordCallOutcome, hfind]
      rw [if_pos hne]
    exact ⟨he, by simp [applyRecordCallOutcome, he]⟩

/-- Witness for C7: on `dbWithScore100` (whose only session is `"s1"` owned
by agent 7), an unknown session id and a foreign agent id are both rejected
with the store left unchanged. -/
theorem record_outcome_rejects_witness :
    (recordCallOutcome dbWithScore100 "nope" 7 { outcomeType := "contacted" } 0 =
        .error "Call session not found" ∧
      applyRecordCallOutcome dbWithScore100 "nope" 7 { outcomeType := "contacted" } 0 =
        dbWithScore100) ∧
    (recordCallOutcome dbWithScore100 "s1" 99 { outcomeType := "contacted" } 0 =
        .error "Agent not authorized for this call session" ∧
      applyRecordCallOutcome dbWithScore100 "s1" 99 { outcomeType := "contacted" } 0 =
        dbWithScore100) :=
  ⟨(record_outcome_rejects_unknown_and_foreign dbWithScore100 "nope" 7
      { outcomeType := "contacted" } 0).1 (by decide),
   (record_outcome_rejects_unknown_and_foreign dbWithScore100 "s1" 99
      { outcomeType := "contacted" } 0).2
      { id := "s1", userId := 1, agentId := 7, callQueueId := "",
        status := "completed", startedAt := 0 }
      (by decide) (by decide)⟩

/-- C8: a webhook whose `CallSid` matches no stored session leaves the store
untouched (logged and dropped, no error), and `CallStatus` is mapped by the
fixed table — `ringing → ringing`, `in-progress → connected`,
`completed → completed`, `busy → no_answer`, `failed → failed`,
`no-answer → no_answer`, `canceled → failed` — with every status outside the
table mapped to `failed`. -/
theorem webhook_unknown_sid_dropped_and_status_mapped (db : DB)
    (w : TwilioWebhookData) (now : Int) :
    (db.sessions.find? (fun s => s.twilioCallSid = some w.CallSid) = none →
      handleTwilioWebhook db w now = db) ∧
    mapTwilioStatus "ringing" = "ringing" ∧
    mapTwilioStatus "in-progress" = "connected" ∧
    mapTwilioStatus "completed" = "completed" ∧
    mapTwilioStatus "busy" = "no_answer" ∧
    mapTwilioStatus "failed" = "failed" ∧
    mapTwilioStatus "no-answer" = "no_answer" ∧
    mapTwilioStatus "canceled" = "failed" ∧
    (w.CallStatus ∉ (["ringing", "in-progress", "completed", "busy", "failed",
        "no-answer", "canceled"] : List String) →
      mapTwilioStatus w.CallStatus = "failed") := by
  refine ⟨?_, by decide, by decide, by decide, by decide, by decide, by decide,
    by decide, ?_⟩
  · intro h
    simp [handleTwilioWebhook, h]
  · intro h
    simp only [List.mem_cons, List.mem_singleton, not_or] at h
    obtain ⟨h1, h2, h3, h4, h5, h6, h7⟩ := h
    simp [mapTwilioStatus, statusMapLookup, jsOrStr, h1, h2, h3, h4, h5, h6, h7]

/-- Witness for C8: `dbWithScore100` stores no Twilio SID, so a `completed`
webhook for SID `"CAX"` is dropped; the made-up status
`"weird-status"` maps to `failed`. -/
theorem webhook_unknown_sid_dropped_witness :
    handleTwilioWebhook dbWithScore100
        { CallSid := "CAX", CallStatus := "completed" } 5 = dbWithScore100 ∧
    mapTwilioStatus "weird-status" = "failed" :=
  ⟨(webhook_unknown_sid_dropped_and_status_mapped dbWithScore100
      { CallSid := "CAX", CallStatus := "completed" } 5).1 (by decide),
   (webhook_unknown_sid_dropped_and_status_mapped dbWithScore100
      { CallSid := "CAX", CallStatus := "weird-status" } 5).2.2.2.2.2.2.2.2
      (by decide)⟩

/-- C9: `initiateCall` without a `queueId` stores the empty string as the
session's `callQueueId` and touches no queue entry; a later
`recordCallOutcome` on a session whose `callQueueId` is empty skips the
queue-completion update (`queues` is unchanged) while the rest of the
transaction proceeds: the outcome row is appended and the user score upsert
is applied. -/
theorem empty_queue_id_skips_queue_completion (db : DB)
    (options : CallSessionOptions) (sid : String) (now : Int)
    (db2 : DB) (sessionId : String) (agentId : Int) (opts : CallOutcomeOptions)
    (now2 : Int) (cs : CallSessionRec)
    (hq : options.queueId = none)
    (hfind : db2.sessions.find? (fun s => s.id = sessionId) = some cs)
    (hagent : cs.agentId = agentId)
    (hcq : cs.callQueueId = "") :
    (initiateCall db options sid now).2.callQueueId = "" ∧
    (initiateCall db options sid now).1.queues = db.queues ∧
    (applyRecordCallOutcome db2 sessionId agentId opts now2).queues = db2.queues ∧
    (applyRecordCallOutcome db2 sessionId agentId opts now2).outcomes.length =
      db2.outcomes.length + 1 ∧
    (applyRecordCallOutcome db2 sessionId agentId opts now2).userScores =
      upsertUserScore db2.userScores cs.userId opts.outcomeType
        opts.scoreAdjustment now2 := by
  refine ⟨by simp [initiateCall, hq, jsOrStr], by simp [initiateCall, hq, jsOrStr],
    ?_, ?_, ?_⟩ <;>
  · simp only [applyRecordCallOutcome, recordCallOutcome, hfind]
    rw [if_neg (by simp [hagent])]
    try simp [hcq]

/-- Witness for C9: initiating with no queue id on `dbNoScores` and recording
a `busy` outcome on its queueless session `"s9"`. -/
theorem empty_queue_id_witness :
    (initiateCall dbNoScores
        { userId := 2, agentId := 3 } "s10" 7000).2.callQueueId = "" ∧
    (initiateCall dbNoScores
        { userId := 2, agentId := 3 } "s10" 7000).1.queues = dbNoScores.queues ∧
    (applyRecordCallOutcome dbNoScores "s9" 3 { outcomeType := "busy" } 7000).queues =
      dbNoScores.queues ∧
    (applyRecordCallOutcome dbNoScores "s9" 3
        { outcomeType := "busy" } 7000).outcomes.length =
      dbNoScores.outcomes.length + 1 ∧
    (applyRecordCallOutcome dbNoScores "s9" 3
        { outcomeType := "busy" } 7000).userScores =
      upsertUserScore dbNoScores.userScores 2 "busy" none 7000 :=
  empty_queue_id_skips_queue_completion dbNoScores { userId := 2, agentId := 3 }
    "s10" 7000 dbNoScores "s9" 3 { outcomeType := "busy" } 7000
    { id := "s9", userId := 2, agentId := 3, callQueueId := "",
      status := "completed", startedAt := 50 }
    rfl (by decide) (by decide) (by decide)

/-- `avgMinutes` always yields a finite number: the truthiness guard takes
the `0` branch on `null` and on `0`, and the remaining divisors (60, 100)
are nonzero. -/
theorem avgMinutes_isSome (o : Option ℚ) : (avgMinutes o).isSome := by
  cases o with
  | none => simp [avgMinutes]
  | some v =>
      by_cases hv : v = 0
      · simp [avgMinutes, hv]
      · simp [avgMinutes, hv, jsDiv]

/-- The empty store, used to instantiate witnesses. -/
def dbEmpty : DB :=
  { sessions := [], outcomes := [], callbacks := [], queues := [],
    agentSessions := [], userScores := [] }

/-- C10: `getCallAnalytics` never divides by zero: when the filters match no
session it returns `totalCalls = 0` and `contactRate = 0`; when the duration
or talk-time average is `null` it returns `avgDurationMinutes = 0` or
`avgTalkTimeMinutes = 0`; and on every store and filter combination all three
division-derived fields are defined (finite) numbers — the remaining fields
are counts by construction. -/
theorem analytics_fields_always_defined (db : DB) (f : CallAnalyticsFilters) :
    ((getCallAnalytics db f).avgDurationMinutes.isSome ∧
     (getCallAnalytics db f).avgTalkTimeMinutes.isSome ∧
     (getCallAnalytics db f).contactRate.isSome) ∧
    (db.sessions.filter (matchesAnalyticsFilters f) = [] →
      (getCallAnalytics db f).totalCalls = 0 ∧
      (getCallAnalytics db f).contactRate = some 0) ∧
    ((db.sessions.filter (matchesAnalyticsFilters f)).filterMap
        (fun s => s.durationSeconds) = [] →
      (getCallAnalytics db f).avgDurationMinutes = some 0) ∧
    ((db.sessions.filter (matchesAnalyticsFilters f)).filterMap
        (fun s => s.talkTimeSeconds) = [] →
      (getCallAnalytics db f).avgTalkTimeMinutes = some 0) := by
  refine ⟨⟨avgMinutes_isSome _, avgMinutes_isSome _, ?_⟩, ?_, ?_, ?_⟩
  · simp only [getCallAnalytics]
    by_cases hn : (db.sessions.filter (matchesAnalyticsFilters f)).length > 0
    · have hq : ((db.sessions.filter (matchesAnalyticsFilters f)).length : ℚ) ≠ 0 := by
        exact_mod_cast Nat.pos_iff_ne_zero.mp hn
      simp [hn, jsDiv, hq]
    · simp [hn]
  · intro h
    simp [getCallAnalytics, h]
  · intro h
    simp [getCallAnalytics, h, avgOpt, avgMinutes]
  · intro h
    simp [getCallAnalytics, h, avgOpt, avgMinutes]

/-- Witness for C10: on the empty store with empty filters every
division-guarded field is the defined number 0. -/
theorem analytics_fields_defined_witness :
    (getCallAnalytics dbEmpty {}).totalCalls = 0 ∧
    (getCallAnalytics dbEmpty {}).contactRate = some 0 ∧
    (getCallAnalytics dbEmpty {}).avgDurationMinutes = some 0 ∧
    (getCallAnalytics dbEmpty {}).avgTalkTimeMinutes = some 0 :=
  ⟨((analytics_fields_always_defined dbEmpty {}).2.1 rfl).1,
   ((analytics_fields_always_defined dbEmpty {}).2.1 rfl).2,
   (analytics_fields_always_defined dbEmpty {}).2.2.1 rfl,
   (analytics_fields_always_defined dbEmpty {}).2.2.2 rfl⟩

end RMCDialer
